import Mathlib

/-!
Verification development for the evento booking backend.

Shallow embedding of the booking/payment subsystem:
- data model from `src/models/Host.js` (HostSchema and BookingSchema),
- booking handlers from `src/unnamed/part_001` (controllers/bookings.js:
  getBooking, createBooking, updateBookingStatus),
- payment handlers from `src/controllers/payments.js`
  (createPaymentIntent, confirmPayment, stripeWebhook, getPaymentDetails),
- listing handlers from `src/unnamed/part_000` (getVenues) and
  `src/unnamed/part_001` (getServiceProviders).

Conventions of the embedding:
- Document ids are `Nat`; timestamps are `Nat` (abstract epoch milliseconds).
  JavaScript computes the three-month booking deadline with
  `Date.setMonth(getMonth() + 3)`; the calendar-month arithmetic is
  abstracted as a fixed span `threeMonthsMs` added to `now` (none of the
  verified properties depends on the exact length of the span).
- Money amounts are exact rationals; `Math.round` is `jsRound`
  (floor of x + 1/2, which is the JS round-half-up rule).
- The document store is an explicit `Db` value; `save` is a functional
  update that first runs the mongoose pre-save hook of BookingSchema.
- Outbound email/SMS delivery is modelled as the list of messages the
  handler hands to sendEmail/sendSMS, each recorded with its channel,
  recipient, and the amount / transaction id interpolated into its body.
- HTTP responses are per-handler inductives; each constructor is one
  response branch of the source, with the source's status code noted in
  a comment.  The source serves authenticated-but-disallowed rejections
  with status 401 (ownership / reference mismatches) or 403 (role
  violations); both are the spec taxonomy's Forbidden.
-/

/-- `hostType` enum of HostSchema. -/
inductive HostType
  | venue
  | caterer
  | decorator
  | organizer
deriving DecidableEq, Repr

/-- `services[].serviceType` enum of BookingSchema. -/
inductive ServiceType
  | catering
  | decoration
  | organization
deriving DecidableEq, Repr

/-- `status` enum of BookingSchema. -/
inductive BStatus
  | pending
  | confirmed
  | cancelled
  | completed
deriving DecidableEq, Repr

/-- `payment.paymentMethod` enum of BookingSchema. -/
inductive PayMethod
  | bank_transfer
  | upi
  | online_payment
deriving DecidableEq, Repr

/-- Host document (HostSchema), restricted to the fields the embedded
handlers read.  Venue-only fields are `Option` because they are required
only when `hostType = venue`. -/
structure Host where
  id : Nat
  email : String
  mobileNumber : String
  hostType : HostType
  isVerified : Bool
  city : String
  venueType : Option String
  maxGuestCapacity : Option Nat
  services : List String
deriving DecidableEq, Repr

/-- User document, restricted to the fields the embedded handlers read. -/
structure User where
  id : Nat
  email : String
  mobileNumber : String
deriving DecidableEq, Repr

/-- One entry of BookingSchema's `services` array. -/
structure ServiceEntry where
  serviceProvider : Nat
  serviceType : ServiceType
  price : ℚ
deriving DecidableEq, Repr

/-- BookingSchema's `eventDetails` sub-document. -/
structure EventDetails where
  eventType : String
  guestCount : Nat
  startDate : Nat
  endDate : Nat
deriving DecidableEq, Repr

/-- BookingSchema's `customerDetails` sub-document. -/
structure CustomerDetails where
  name : String
  contactNumber : String
  aadhaarNumber : String
deriving DecidableEq, Repr

/-- BookingSchema's `payment` sub-document. -/
structure Payment where
  totalAmount : ℚ
  advanceAmount : ℚ
  remainingAmount : ℚ
  paymentMethod : PayMethod
  isPaid : Bool
  transactionId : Option String
  paymentDate : Option Nat
deriving DecidableEq, Repr

/-- BookingSchema's `notifications` delivery-flag sub-document. -/
structure NotifFlags where
  emailSent : Bool
  smsSent : Bool
  callMade : Bool
deriving DecidableEq, Repr

/-- Booking document (BookingSchema). -/
structure Booking where
  id : Nat
  user : Nat
  venue : Option Nat
  services : List ServiceEntry
  isServiceOnly : Bool
  eventDetails : EventDetails
  customerDetails : CustomerDetails
  payment : Payment
  status : BStatus
  notifications : NotifFlags
deriving DecidableEq, Repr

/-- The document store: the three collections the embedded handlers touch. -/
structure Db where
  bookings : List Booking
  hosts : List Host
  users : List User
deriving DecidableEq, Repr

/-- `Booking.findById`. -/
def findBooking (db : Db) (bid : Nat) : Option Booking :=
  db.bookings.find? (fun b => b.id == bid)

/-- `Host.findById`. -/
def findHost (db : Db) (hid : Nat) : Option Host :=
  db.hosts.find? (fun h => h.id == hid)

/-- `User.findById`. -/
def findUser (db : Db) (uid : Nat) : Option User :=
  db.users.find? (fun u => u.id == uid)

/-- Persisting an already-stored booking document: replace the stored
document with the same id. -/
def saveBooking (db : Db) (b : Booking) : Db :=
  { db with bookings := db.bookings.map (fun x => if x.id == b.id then b else x) }

/-- Inserting a new booking document (`Booking.create`). -/
def insertBooking (db : Db) (b : Booking) : Db :=
  { db with bookings := db.bookings ++ [b] }

/-- The authenticated principal: the auth middleware sets `req.isHost`
and either `req.user.id` or `req.host.id`. -/
inductive Caller
  | user (id : Nat)
  | host (id : Nat)
deriving DecidableEq, Repr

/-- `req.isHost`. -/
def Caller.isHostReq : Caller → Bool
  | .user _ => false
  | .host _ => true

/-- The principal id carried by the credential (`req.user.id` or
`req.host.id`, whichever the middleware populated). -/
def Caller.cid : Caller → Nat
  | .user i => i
  | .host i => i

/-- Delivery channel of an outbound notification. -/
inductive Channel
  | email
  | sms
deriving DecidableEq, Repr

/-- One outbound notification handed to sendEmail / sendSMS: its channel,
its recipient (email address or phone number), and the money amount and
transaction id interpolated into its body, when the template has them. -/
structure Msg where
  channel : Channel
  recipient : String
  amount : Option ℚ
  txn : Option String
deriving DecidableEq, Repr

/-- Abstraction of JavaScript's `setMonth(getMonth() + 3)` span: the
three-month booking-window length as a fixed number of milliseconds. -/
def threeMonthsMs : Nat := 3 * 30 * 24 * 60 * 60 * 1000

/-- The value `threeMonthsFromNow` computed by both the API-layer check in
createBooking and the BookingSchema pre-save hook. -/
def threeMonthsFromNow (now : Nat) : Nat := now + threeMonthsMs

/-- A thrown persistence-layer error, carrying the JavaScript `name` the
handlers branch on (`err.name === 'ValidationError'`, `'CastError'`). -/
structure SaveErr where
  name : String
  message : String
deriving DecidableEq, Repr

/-- BookingSchema's `pre('save')` hook: rejects a booking whose
`eventDetails.startDate` exceeds now + 3 months.  The hook passes a plain
`new Error(...)` to `next`, so the thrown error's `name` is `"Error"`
(not `"ValidationError"`). -/
def bookingPreSave (now : Nat) (b : Booking) : Except SaveErr Booking :=
  if b.eventDetails.startDate > threeMonthsFromNow now then
    .error ⟨"Error", "Bookings can only be made up to 3 months in advance"⟩
  else
    .ok b

/-- How the createBooking handler's catch block surfaces a thrown
persistence error: `err.name === 'ValidationError'` becomes a 400 with
the per-field messages, anything else a 500 Server Error. -/
inductive ErrSurface
  | validation (msgs : List String)
  | internal
deriving DecidableEq, Repr

/-- The catch-block classification of a thrown persistence error
(createBooking, `src/unnamed/part_001` lines 338-350). -/
def classifySaveErr (e : SaveErr) : ErrSurface :=
  if e.name == "ValidationError" then .validation [e.message] else .internal

/-- `isVenueOwner` test of updateBookingStatus:
`booking.venue && booking.venue.toString() === req.host.id`. -/
def isVenueOwnerB (b : Booking) (hid : Nat) : Bool :=
  match b.venue with
  | some v => v == hid
  | none => false

/-- `isServiceProvider` test of updateBookingStatus:
`booking.services.some(s => s.serviceProvider.toString() === req.host.id)`. -/
def isServiceProviderB (b : Booking) (hid : Nat) : Bool :=
  b.services.any (fun s => s.serviceProvider == hid)

/-- The not-authorized condition shared verbatim by getBooking
(`src/unnamed/part_001` lines 126-130) and getPaymentDetails
(`src/controllers/payments.js` lines 291-295):
`(!req.isHost && booking.user !== req.user.id) &&
 (req.isHost && booking.venue !== req.host.id && !services.some(...))`.
When `booking.venue` is absent the JavaScript venue comparison would
throw, but the `&&` short-circuit makes that subterm unreachable; it is
modelled as `true` (mismatch) there. -/
def readAuthDenied (c : Caller) (b : Booking) : Bool :=
  ((!c.isHostReq) && (b.user != c.cid))
    &&
  (c.isHostReq
    && (match b.venue with | some v => v != c.cid | none => true)
    && !(b.services.any (fun s => s.serviceProvider == c.cid)))

/-- Response branches of getBooking (status codes from the source). -/
inductive GetBookingResp
  | bookingNotFound                -- 404
  | notAuthorizedRead              -- 401
  | ok (b : Booking)               -- 200
deriving DecidableEq, Repr

/-- getBooking handler (`src/unnamed/part_001` lines 102-156). -/
def getBooking (db : Db) (c : Caller) (bid : Nat) : GetBookingResp :=
  match findBooking db bid with
  | none => .bookingNotFound
  | some b =>
    if readAuthDenied c b then .notAuthorizedRead else .ok b

/-- Response branches of getPaymentDetails. -/
inductive PayDetailsResp
  | bookingNotFound                -- 404
  | notAuthorizedRead              -- 401
  | ok (p : Payment)               -- 200
deriving DecidableEq, Repr

/-- getPaymentDetails handler (`src/controllers/payments.js` lines
279-321): same lookup and the same authorization condition as
getBooking, returning the booking's payment sub-document. -/
def getPaymentDetails (db : Db) (c : Caller) (bid : Nat) : PayDetailsResp :=
  match findBooking db bid with
  | none => .bookingNotFound
  | some b =>
    if readAuthDenied c b then .notAuthorizedRead else .ok b.payment

/-- `['confirmed', 'cancelled', 'completed'].includes(status)` followed by
the assignment `booking.status = status`: the accepted target strings of
updateBookingStatus mapped into the status enum. -/
def parseUpd : String → Option BStatus
  | "confirmed" => some .confirmed
  | "cancelled" => some .cancelled
  | "completed" => some .completed
  | _ => none

/-- Response branches of updateBookingStatus (status codes from the
source).  `notAuthorizedUpd` (401) and `usersOnlyCancel` (403) are the
authenticated-but-disallowed rejections — the spec taxonomy's Forbidden;
`invalidStatus` (400) is its InvalidArgument. -/
inductive UpdResp
  | invalidStatus                  -- 400
  | bookingNotFound                -- 404
  | notAuthorizedUpd               -- 401
  | usersOnlyCancel                -- 403
  | serverError                    -- 500
  | ok (b : Booking)               -- 200
deriving DecidableEq, Repr

/-- Whether an updateBookingStatus rejection is in the spec taxonomy's
Forbidden class (authenticated but disallowed transition / ownership;
served by the source as 401 or 403). -/
def UpdResp.forbiddenClass : UpdResp → Bool
  | .notAuthorizedUpd => true
  | .usersOnlyCancel => true
  | _ => false

/-- Status-change notification pair to the venue host, sent when the new
status is cancelled or completed and the booking has a venue
(`src/unnamed/part_001` lines 440-461).  The templates carry no amount
and no transaction id.  `none` (a failed `Host.findById`) makes the
handler throw. -/
def statusVenueFanout (db : Db) (b : Booking) : Option (List Msg) :=
  match b.venue with
  | none => some []
  | some v =>
    match findHost db v with
    | none => none
    | some vh =>
      some [⟨.email, vh.email, none, none⟩, ⟨.sms, vh.mobileNumber, none, none⟩]

/-- Status-change notification pairs to the service providers, one
email+SMS pair per `services` entry (`src/unnamed/part_001` lines
463-485).  `none` when some provider lookup fails (the handler throws). -/
def statusSvcFanout (db : Db) : List ServiceEntry → Option (List Msg)
  | [] => some []
  | s :: rest =>
    match findHost db s.serviceProvider with
    | none => none
    | some p =>
      (statusSvcFanout db rest).map
        (fun ms =>
          ⟨.email, p.email, none, none⟩ :: ⟨.sms, p.mobileNumber, none, none⟩ :: ms)

/-- The mutation-and-notification tail of updateBookingStatus (lines
409-491): set the status, save (running the pre-save hook), then notify
the user, and — when the new status is cancelled or completed — the venue
host and every service provider. -/
def applyStatus (db : Db) (b : Booking) (st : BStatus) (now : Nat) :
    UpdResp × Db × List Msg :=
  let b1 := { b with status := st }
  match bookingPreSave now b1 with
  | .error _ => (.serverError, db, [])
  | .ok _ =>
    let db1 := saveBooking db b1
    match findUser db1 b1.user with
    | none => (.serverError, db1, [])
    | some u =>
      let userMsgs : List Msg :=
        [⟨.email, u.email, none, none⟩, ⟨.sms, u.mobileNumber, none, none⟩]
      if st == .cancelled || st == .completed then
        match statusVenueFanout db1 b1 with
        | none => (.serverError, db1, userMsgs)
        | some vMsgs =>
          match statusSvcFanout db1 b1.services with
          | none => (.serverError, db1, userMsgs ++ vMsgs)
          | some sMsgs => (.ok b1, db1, userMsgs ++ vMsgs ++ sMsgs)
      else (.ok b1, db1, userMsgs)

/-- updateBookingStatus handler (`src/unnamed/part_001` lines 357-507).
Order of checks as in the source: target-status validity, booking lookup,
then per-role permission; the current status is never consulted. -/
def updateBookingStatus (db : Db) (c : Caller) (bid : Nat)
    (statusStr : String) (now : Nat) : UpdResp × Db × List Msg :=
  match parseUpd statusStr with
  | none => (.invalidStatus, db, [])
  | some st =>
    match findBooking db bid with
    | none => (.bookingNotFound, db, [])
    | some b =>
      match c with
      | .host hid =>
        if !(isVenueOwnerB b hid) && !(isServiceProviderB b hid) then
          (.notAuthorizedUpd, db, [])
        else applyStatus db b st now
      | .user uid =>
        if b.user != uid then (.notAuthorizedUpd, db, [])
        else if st != .cancelled then (.usersOnlyCancel, db, [])
        else applyStatus db b st now

/-- The paid booking produced by confirmPayment's mutation block
(`src/controllers/payments.js` lines 121-126): payment marked paid with
the supplied transaction id, payment date and method, status overwritten
with confirmed. -/
def paidBooking (b : Booking) (t : String) (m : PayMethod) (now : Nat) : Booking :=
  { b with
    payment := { b.payment with
      isPaid := true
      transactionId := some t
      paymentDate := some now
      paymentMethod := m }
    status := .confirmed }

/-- Payment-confirmation notification pair to the venue host
(`src/controllers/payments.js` lines 155-179): email carries the advance
amount and the transaction id, SMS carries the advance amount.  `none`
when the venue host lookup fails (the handler throws). -/
def confirmVenueFanout (db : Db) (b : Booking) (t : String) : Option (List Msg) :=
  match b.venue with
  | none => some []
  | some v =>
    match findHost db v with
    | none => none
    | some vh =>
      some [⟨.email, vh.email, some b.payment.advanceAmount, some t⟩,
            ⟨.sms, vh.mobileNumber, some b.payment.advanceAmount, none⟩]

/-- Payment-confirmation notification pairs to the service providers, one
email+SMS pair per `services` entry carrying that entry's price, the
email also carrying the transaction id (`src/controllers/payments.js`
lines 182-208). -/
def confirmSvcFanout (db : Db) (t : String) : List ServiceEntry → Option (List Msg)
  | [] => some []
  | s :: rest =>
    match findHost db s.serviceProvider with
    | none => none
    | some p =>
      (confirmSvcFanout db t rest).map
        (fun ms =>
          ⟨.email, p.email, some s.price, some t⟩
            :: ⟨.sms, p.mobileNumber, some s.price, none⟩ :: ms)

/-- Response branches of confirmPayment (status codes from the source). -/
inductive ConfirmResp
  | hostsCannotConfirm             -- 403
  | bookingNotFound                -- 404
  | notBookingOwner                -- 401
  | alreadyPaid                    -- 400
  | serverError                    -- 500
  | ok (b : Booking)               -- 200
deriving DecidableEq, Repr

/-- confirmPayment handler (`src/controllers/payments.js` lines 83-221).
Checks in source order: caller must not be a host, booking must exist,
caller must own it, booking must not already be paid; then the payment
fields and status are set, the booking saved (running the pre-save
hook), and the confirmation fan-out sent: one email+SMS pair to the
user (advance amount + transaction id), one to the venue host if
present, one per service entry.  The current status is never read. -/
def confirmPayment (db : Db) (c : Caller) (bid : Nat) (t : String)
    (m : PayMethod) (now : Nat) : ConfirmResp × Db × List Msg :=
  match c with
  | .host _ => (.hostsCannotConfirm, db, [])
  | .user uid =>
    match findBooking db bid with
    | none => (.bookingNotFound, db, [])
    | some b =>
      if b.user != uid then (.notBookingOwner, db, [])
      else if b.payment.isPaid then (.alreadyPaid, db, [])
      else
        let b1 := paidBooking b t m now
        match bookingPreSave now b1 with
        | .error _ => (.serverError, db, [])
        | .ok _ =>
          let db1 := saveBooking db b1
          match findUser db1 b1.user with
          | none => (.serverError, db1, [])
          | some u =>
            let userMsgs : List Msg :=
              [⟨.email, u.email, some b1.payment.advanceAmount, some t⟩,
               ⟨.sms, u.mobileNumber, some b1.payment.advanceAmount, some t⟩]
            match confirmVenueFanout db1 b1 t with
            | none => (.serverError, db1, userMsgs)
            | some vMsgs =>
              match confirmSvcFanout db1 t b1.services with
              | none => (.serverError, db1, userMsgs ++ vMsgs)
              | some sMsgs => (.ok b1, db1, userMsgs ++ vMsgs ++ sMsgs)

/-- Response branches of the Stripe webhook handler: a signature failure
is a 400, everything else acknowledges with 200 `{received: true}`. -/
inductive WebhookResp
  | sigError                       -- 400
  | received                       -- 200
deriving DecidableEq, Repr

/-- stripeWebhook handler (`src/controllers/payments.js` lines 226-274).
On a verified `payment_intent.succeeded` event whose metadata names an
existing, not-yet-paid booking, it sets the payment fields (transaction
id := the intent id; the payment method is left untouched) and advances
the status to confirmed.  It sends no notifications (the fan-out exists
only as a comment), and any processing error is swallowed: the response
is 200 either way. -/
def stripeWebhook (db : Db) (sigOk : Bool) (evtType : String)
    (intentId : String) (metaBookingId : Option Nat) (now : Nat) :
    WebhookResp × Db :=
  if !sigOk then (.sigError, db)
  else if evtType != "payment_intent.succeeded" then (.received, db)
  else
    match metaBookingId with
    | none => (.received, db)
    | some bid =>
      match findBooking db bid with
      | none => (.received, db)
      | some b =>
        if b.payment.isPaid then (.received, db)
        else
          let b1 := { b with
            payment := { b.payment with
              isPaid := true
              transactionId := some intentId
              paymentDate := some now }
            status := .confirmed }
          match bookingPreSave now b1 with
          | .error _ => (.received, db)
          | .ok _ => (.received, saveBooking db b1)

/-- `Math.round`: round half away from zero upward, i.e. ⌊x + 1/2⌋. -/
def jsRound (q : ℚ) : ℤ := ⌊q + 1 / 2⌋

/-- Response branches of createPaymentIntent (status codes from the
source).  Only the `ok` branch creates a Stripe charge; its payload is
the charge amount in the minor currency unit. -/
inductive IntentResp
  | hostsCannotPay                 -- 403
  | bookingNotFound                -- 404
  | notBookingOwner                -- 401
  | alreadyPaid                    -- 400
  | wrongMethod                    -- 400
  | ok (amountMinor : ℤ)           -- 200, charge created
deriving DecidableEq, Repr

/-- createPaymentIntent handler (`src/controllers/payments.js` lines
11-78).  Checks in source order: caller not a host, booking exists,
caller owns it, not already paid, requested method is online_payment;
then creates the charge for `Math.round(advanceAmount * 100)`. -/
def createPaymentIntent (db : Db) (c : Caller) (bid : Nat)
    (m : PayMethod) : IntentResp :=
  match c with
  | .host _ => .hostsCannotPay
  | .user uid =>
    match findBooking db bid with
    | none => .bookingNotFound
    | some b =>
      if b.user != uid then .notBookingOwner
      else if b.payment.isPaid then .alreadyPaid
      else if m != .online_payment then .wrongMethod
      else .ok (jsRound (b.payment.advanceAmount * 100))

/-- The booking-creation request body (the fields createBooking reads). -/
structure CreateReq where
  venue : Option Nat
  services : List ServiceEntry
  eventDetails : EventDetails
  customerDetails : CustomerDetails
  payment : Payment
deriving DecidableEq, Repr

/-- The venue existence/verification lookup of createBooking
(`Host.findOne({_id: venue, hostType: 'venue', isVerified: true})`,
`src/unnamed/part_001` lines 184-197); vacuously true when the request
names no venue. -/
def venueCheckOk (db : Db) : Option Nat → Bool
  | none => true
  | some v =>
    match findHost db v with
    | none => false
    | some h => h.hostType == .venue && h.isVerified

/-- The ternary `serviceType === 'catering' ? 'caterer' :
serviceType === 'decoration' ? 'decorator' : 'organizer'`. -/
def requiredHostType : ServiceType → HostType
  | .catering => .caterer
  | .decoration => .decorator
  | .organization => .organizer

/-- The provider existence/verification lookup of createBooking for one
`services` entry (`src/unnamed/part_001` lines 200-216). -/
def providerCheckOk (db : Db) (s : ServiceEntry) : Bool :=
  match findHost db s.serviceProvider with
  | none => false
  | some h => h.hostType == requiredHostType s.serviceType && h.isVerified

/-- Booking-received notification pairs to the service providers at
creation (`src/unnamed/part_001` lines 294-320): no amount, no
transaction id in the templates. -/
def createSvcFanout (db : Db) : List ServiceEntry → Option (List Msg)
  | [] => some []
  | s :: rest =>
    match findHost db s.serviceProvider with
    | none => none
    | some p =>
      (createSvcFanout db rest).map
        (fun ms =>
          ⟨.email, p.email, none, none⟩ :: ⟨.sms, p.mobileNumber, none, none⟩ :: ms)

/-- Booking-received notification pair to the venue host at creation
(`src/unnamed/part_001` lines 267-291). -/
def createVenueFanout (db : Db) : Option Nat → Option (List Msg)
  | none => some []
  | some v =>
    match findHost db v with
    | none => none
    | some vh =>
      some [⟨.email, vh.email, none, none⟩, ⟨.sms, vh.mobileNumber, none, none⟩]

/-- Response branches of createBooking (status codes from the source). -/
inductive CreateResp
  | hostsCannotBook                -- 403
  | venueNotFound                  -- 404
  | providerNotFound               -- 404
  | tooFarInAdvance                -- 400, the direct API check
  | validationFailed (msgs : List String)  -- 400, catch of ValidationError
  | serverError                    -- 500
  | created (b : Booking)          -- 201
deriving DecidableEq, Repr

/-- createBooking handler (`src/unnamed/part_001` lines 161-352).
Checks in source order: caller must be a user, a named venue must
resolve to a verified venue host, every service entry's provider must
resolve to a verified host of the matching type, and the requested
start date must not exceed now + 3 months (the direct API check, lines
218-227).  Then the booking is created with status pending (running the
pre-save hook — a thrown hook error is classified by the catch block),
the receipt fan-out sent, and the notification flags saved. -/
def createBooking (db : Db) (c : Caller) (req : CreateReq) (now : Nat)
    (newId : Nat) : CreateResp × Db × List Msg :=
  match c with
  | .host _ => (.hostsCannotBook, db, [])
  | .user uid =>
    if !venueCheckOk db req.venue then (.venueNotFound, db, [])
    else if !(req.services.all (providerCheckOk db)) then (.providerNotFound, db, [])
    else if req.eventDetails.startDate > threeMonthsFromNow now then
      (.tooFarInAdvance, db, [])
    else
      let b : Booking :=
        { id := newId
          user := uid
          venue := req.venue
          services := req.services
          isServiceOnly := req.venue.isNone && !req.services.isEmpty
          eventDetails := req.eventDetails
          customerDetails := req.customerDetails
          payment := req.payment
          status := .pending
          notifications := ⟨false, false, false⟩ }
      match bookingPreSave now b with
      | .error e =>
        match classifySaveErr e with
        | .validation ms => (.validationFailed ms, db, [])
        | .internal => (.serverError, db, [])
      | .ok _ =>
        let db1 := insertBooking db b
        match findUser db1 uid with
        | none => (.serverError, db1, [])
        | some u =>
          let userMsgs : List Msg :=
            [⟨.email, u.email, some req.payment.totalAmount, none⟩,
             ⟨.sms, u.mobileNumber, some req.payment.totalAmount, none⟩]
          match createVenueFanout db1 req.venue with
          | none => (.serverError, db1, userMsgs)
          | some vMsgs =>
            match createSvcFanout db1 req.services with
            | none => (.serverError, db1, userMsgs ++ vMsgs)
            | some sMsgs =>
              let b2 := { b with notifications := ⟨true, true, false⟩ }
              match bookingPreSave now b2 with
              | .error _ => (.serverError, db1, userMsgs ++ vMsgs ++ sMsgs)
              | .ok _ =>
                (.created b2, saveBooking db1 b2, userMsgs ++ vMsgs ++ sMsgs)

/-- Case-insensitive lowering used in the embedding of the listing
city filter `{$regex: city, $options: 'i'}`. -/
def lowerChars (s : String) : List Char := s.toLower.data

/-- Whether `pat` occurs at the start of `hay`. -/
def startsWithChars : List Char → List Char → Bool
  | [], _ => true
  | _ :: _, [] => false
  | a :: as, b :: bs => a == b && startsWithChars as bs

/-- Whether `pat` occurs anywhere in `hay`. -/
def hasSubChars (pat : List Char) : List Char → Bool
  | [] => pat.isEmpty
  | c :: rest => startsWithChars pat (c :: rest) || hasSubChars pat rest

/-- The city filter: a case-insensitive substring match (the `$regex`
with `$options: 'i'`, for patterns without regex metacharacters). -/
def cityMatch (pat city : String) : Bool :=
  hasSubChars (lowerChars pat) (lowerChars city)

/-- The optional filters of getVenues (`src/unnamed/part_000` lines
10-32), already URL-parsed. -/
structure VenueQuery where
  venueType : Option String
  city : Option String
  minCapacity : Option Nat
  services : Option (List String)
deriving DecidableEq, Repr

/-- The Mongo query getVenues builds, as a predicate on stored hosts.
`$gte` on a missing `maxGuestCapacity` does not match; `$in` on the
`services` array matches when the arrays intersect. -/
def matchesVenueQuery (q : VenueQuery) (h : Host) : Bool :=
  h.hostType == .venue
  && (match q.venueType with
      | none => true
      | some vt => h.venueType == some vt)
  && (match q.city with
      | none => true
      | some c => cityMatch c h.city)
  && (match q.minCapacity with
      | none => true
      | some mc =>
        match h.maxGuestCapacity with
        | none => false
        | some cap => mc ≤ cap)
  && (match q.services with
      | none => true
      | some ss => h.services.any (fun s => ss.contains s))

/-- The optional filters of getServiceProviders (`src/unnamed/part_001`
lines 559-580).  `hostType` narrows the provider-subtype scope only when
it is one of caterer / decorator / organizer. -/
structure ServiceQuery where
  hostType : Option String
  city : Option String
  services : Option (List String)
deriving DecidableEq, Repr

/-- The provider-subtype scope of getServiceProviders. -/
def providerTypeMatches (q : ServiceQuery) (h : Host) : Bool :=
  match q.hostType with
  | some "caterer" => h.hostType == .caterer
  | some "decorator" => h.hostType == .decorator
  | some "organizer" => h.hostType == .organizer
  | _ => h.hostType == .caterer || h.hostType == .decorator || h.hostType == .organizer

/-- The Mongo query getServiceProviders builds, as a predicate. -/
def matchesServiceQuery (q : ServiceQuery) (h : Host) : Bool :=
  providerTypeMatches q h
  && (match q.city with
      | none => true
      | some c => cityMatch c h.city)
  && (match q.services with
      | none => true
      | some ss => h.services.any (fun s => ss.contains s))

/-- A `next`/`prev` page descriptor of the listing responses. -/
structure PageDesc where
  page : Nat
  limit : Nat
deriving DecidableEq, Repr

/-- A listing response: `count` is `data.length` in the source (the
number of items on the returned page), and `pagination` holds the
optional `next`/`prev` descriptors.  The matching total is computed by
the handlers but used only to decide `next`. -/
structure ListResp where
  count : Nat
  next : Option PageDesc
  prev : Option PageDesc
  data : List Host
deriving DecidableEq, Repr

/-- The pagination block shared verbatim by getVenues,
getServiceProviders and getBookings: `page`/`limit` default to 1/10 when
falsy (`parseInt(x) || d`), `startIndex = (page-1)*limit`,
`endIndex = page*limit`, skip/limit over the matching documents,
`next` iff `endIndex < total`, `prev` iff `startIndex > 0`. -/
def paginate (matching : List Host) (pageReq limitReq : Nat) : ListResp :=
  let page := if pageReq == 0 then 1 else pageReq
  let limit := if limitReq == 0 then 10 else limitReq
  let startIndex := (page - 1) * limit
  let endIndex := page * limit
  let total := matching.length
  let items := (matching.drop startIndex).take limit
  { count := items.length
    next := if endIndex < total then some ⟨page + 1, limit⟩ else none
    prev := if startIndex > 0 then some ⟨page - 1, limit⟩ else none
    data := items }

/-- getVenues handler (`src/unnamed/part_000` lines 8-77). -/
def getVenues (db : Db) (q : VenueQuery) (pageReq limitReq : Nat) : ListResp :=
  paginate (db.hosts.filter (matchesVenueQuery q)) pageReq limitReq

/-- getServiceProviders handler (`src/unnamed/part_001` lines 559-625). -/
def getServiceProviders (db : Db) (q : ServiceQuery) (pageReq limitReq : Nat) :
    ListResp :=
  paginate (db.hosts.filter (matchesServiceQuery q)) pageReq limitReq

/-- Concrete fixtures used by the witnesses and counterexamples. -/
def exUser : User := ⟨5, "u@ex.com", "111"⟩

def exVenueHost : Host :=
  ⟨10, "v@ex.com", "222", .venue, true, "Pune", some "hotel", some 200, []⟩

def exProvider : Host :=
  ⟨11, "c@ex.com", "333", .caterer, true, "Pune", none, none, ["catering"]⟩

def exEvent : EventDetails := ⟨"wedding", 100, 1000, 2000⟩

def exCustomer : CustomerDetails := ⟨"A", "111", "AAD"⟩

def exPaymentUnpaid : Payment := ⟨10000, 2500, 7500, .online_payment, false, none, none⟩

def exSvcEntry : ServiceEntry := ⟨11, .catering, 1500⟩

def exBookingPending : Booking :=
  ⟨1, 5, some 10, [exSvcEntry], false, exEvent, exCustomer, exPaymentUnpaid,
   .pending, ⟨false, false, false⟩⟩

def exBookingCancelled : Booking := { exBookingPending with status := .cancelled }

def exBookingPaid : Booking :=
  { exBookingPending with
    payment := { exPaymentUnpaid with
      isPaid := true
      transactionId := some "tx1"
      paymentDate := some 50 }
    status := .confirmed }

def exDb : Db := ⟨[exBookingPending], [exVenueHost, exProvider], [exUser]⟩

def exDbCancelled : Db := ⟨[exBookingCancelled], [exVenueHost, exProvider], [exUser]⟩

def exDbPaid : Db := ⟨[exBookingPaid], [exVenueHost, exProvider], [exUser]⟩

def emptyDb : Db := ⟨[], [], []⟩

/-- A store of fifteen venue hosts used to exercise the listing
pagination. -/
def exVenueN (i : Nat) : Host :=
  ⟨100 + i, "vn@ex.com", "400", .venue, true, "Pune", some "hotel", some 150, []⟩

def exProvN (i : Nat) : Host :=
  ⟨200 + i, "cn@ex.com", "500", .caterer, true, "Pune", none, none, ["catering"]⟩

def exListDb : Db :=
  ⟨[], (List.range 15).map exVenueN ++ (List.range 15).map exProvN, []⟩

def emptyVenueQuery : VenueQuery := ⟨none, none, none, none⟩

def exLateEvent : EventDetails := { exEvent with startDate := threeMonthsMs + 1 }

def exLateBooking : Booking := { exBookingPending with eventDetails := exLateEvent }

def exLateReq : CreateReq := ⟨none, [], exLateEvent, exCustomer, exPaymentUnpaid⟩

def exBookingCompleted : Booking := { exBookingCancelled with status := .completed }

/-- Looking up a booking by id returns a booking bearing that id. -/
theorem id_of_findBooking (db : Db) (bid : Nat) (b : Booking)
    (h : findBooking db bid = some b) : b.id = bid := by
  have hp := List.find?_some h
  simpa using hp

/-- Saving a booking does not touch the hosts collection. -/
theorem findHost_saveBooking (db : Db) (b : Booking) (hid : Nat) :
    findHost (saveBooking db b) hid = findHost db hid := rfl

/-- Saving a booking does not touch the users collection. -/
theorem findUser_saveBooking (db : Db) (b : Booking) (uid : Nat) :
    findUser (saveBooking db b) uid = findUser db uid := rfl

/-- List form of `findBooking_saveBooking`: replacing the stored document
that carries a found id makes a lookup of that id return the replacement. -/
theorem find_save_list (bs : List Booking) (bid : Nat) (b b1 : Booking)
    (h : bs.find? (fun x => x.id == bid) = some b) (h1 : b1.id = bid) :
    (bs.map (fun x => if x.id == b1.id then b1 else x)).find?
      (fun x => x.id == bid) = some b1 := by
  induction bs with
  | nil => simp at h
  | cons x xs ih =>
    by_cases hx : (x.id == bid) = true
    · have hxe : (x.id == b1.id) = true := by rw [h1]; exact hx
      simp only [List.map_cons, hxe, if_true]
      simp [List.find?, h1]
    · have hx2 : (x.id == bid) = false := Bool.eq_false_iff.mpr hx
      have hxe : (x.id == b1.id) = false := by rw [h1]; exact hx2
      simp only [List.map_cons, hxe, Bool.false_eq_true, if_false]
      simp only [List.find?, hx2, Bool.false_eq_true] at h ⊢
      exact ih h

/-- After saving a replacement document carrying the id of a stored
booking, looking that id up returns the replacement. -/
theorem findBooking_saveBooking (db : Db) (bid : Nat) (b b1 : Booking)
    (h : findBooking db bid = some b) (h1 : b1.id = bid) :
    findBooking (saveBooking db b1) bid = some b1 :=
  find_save_list db.bookings bid b b1 h h1

/-- When every service provider referenced by the entries exists, the
payment-confirmation provider fan-out is exactly one email+SMS pair per
entry, carrying that entry's price, the email also the transaction id. -/
theorem confirmSvcFanout_eq (db : Db) (t : String) (ss : List ServiceEntry)
    (pmap : ServiceEntry → Host)
    (h : ∀ s ∈ ss, findHost db s.serviceProvider = some (pmap s)) :
    confirmSvcFanout db t ss =
      some (ss.flatMap (fun s =>
        [⟨.email, (pmap s).email, some s.price, some t⟩,
         ⟨.sms, (pmap s).mobileNumber, some s.price, none⟩])) := by
  induction ss with
  | nil => rfl
  | cons s rest ih =>
    have hs := h s (by simp)
    have hrest := ih (fun x hx => h x (by simp [hx]))
    simp [confirmSvcFanout, hs, hrest]

/-- When every service provider referenced by the entries exists, the
status-change provider fan-out is one email+SMS pair per entry. -/
theorem statusSvcFanout_eq (db : Db) (ss : List ServiceEntry)
    (pmap : ServiceEntry → Host)
    (h : ∀ s ∈ ss, findHost db s.serviceProvider = some (pmap s)) :
    statusSvcFanout db ss =
      some (ss.flatMap (fun s =>
        [⟨.email, (pmap s).email, none, none⟩,
         ⟨.sms, (pmap s).mobileNumber, none, none⟩])) := by
  induction ss with
  | nil => rfl
  | cons s rest ih =>
    have hs := h s (by simp)
    have hrest := ih (fun x hx => h x (by simp [hx]))
    simp [statusSvcFanout, hs, hrest]

/-- The shared read-authorization condition is unsatisfiable: its two
conjuncts demand `req.isHost` be false and true at once. -/
theorem readAuthDenied_false (c : Caller) (b : Booking) :
    readAuthDenied c b = false := by
  cases c <;> simp [readAuthDenied, Caller.isHostReq]

/-- Claim C3: in the booking-read and payment-details-read operations the
not-authorized rejection branch is unreachable — for every authenticated
principal and every existing booking, the authorization condition (a
conjunction requiring the caller to be simultaneously a non-host and a
host) is unsatisfiable, so the operation returns the booking (or its
payment sub-document) rather than an authorization error. -/
theorem c3_read_auth_unreachable (db : Db) (c : Caller) (bid : Nat) (b : Booking)
    (h : findBooking db bid = some b) :
    getBooking db c bid = .ok b ∧ getPaymentDetails db c bid = .ok b.payment := by
  constructor <;> simp [getBooking, getPaymentDetails, h, readAuthDenied_false]

/-- Witness for C3: a host entirely unrelated to the stored booking
(neither its venue nor a provider) still reads the booking and its
payment details. -/
theorem c3_witness :
    getBooking exDb (Caller.host 99) 1 = .ok exBookingPending ∧
    getPaymentDetails exDb (Caller.host 99) 1 = .ok exBookingPending.payment :=
  c3_read_auth_unreachable exDb (Caller.host 99) 1 exBookingPending (by rfl)

/-- Claim C9: creating a payment intent requires the booking not already
paid and the requested method be online_payment — otherwise the handler
fails without creating a charge — and on success the charge amount is
the advance amount converted to the minor currency unit,
`Math.round(advanceAmount * 100)`. -/
theorem c9_intent_amount (db : Db) (uid bid : Nat) (b : Booking) (m : PayMethod)
    (hfind : findBooking db bid = some b) (hown : b.user = uid) :
    (b.payment.isPaid = true →
       createPaymentIntent db (.user uid) bid m = .alreadyPaid) ∧
    (b.payment.isPaid = false → m ≠ .online_payment →
       createPaymentIntent db (.user uid) bid m = .wrongMethod) ∧
    (b.payment.isPaid = false → m = .online_payment →
       createPaymentIntent db (.user uid) bid m =
         .ok (jsRound (b.payment.advanceAmount * 100))) := by
  refine ⟨?_, ?_, ?_⟩ <;> intros <;>
    simp_all [createPaymentIntent, hfind, hown]

/-- Witness for C9: an already-paid booking is rejected; a non-online
method is rejected; the successful intent for an advance of 2500 charges
250000 minor units. -/
theorem c9_witness :
    createPaymentIntent exDbPaid (.user 5) 1 .online_payment = .alreadyPaid ∧
    createPaymentIntent exDb (.user 5) 1 .upi = .wrongMethod ∧
    createPaymentIntent exDb (.user 5) 1 .online_payment = .ok 250000 := by
  refine ⟨(c9_intent_amount exDbPaid 5 1 exBookingPaid .online_payment rfl rfl).1 rfl,
          (c9_intent_amount exDb 5 1 exBookingPending .upi rfl rfl).2.1 rfl (by decide),
          ?_⟩
  have h := (c9_intent_amount exDb 5 1 exBookingPending .online_payment rfl rfl).2.2 rfl rfl
  rw [h]
  norm_num [jsRound, exBookingPending, exPaymentUnpaid]

/-- Counterexample for C10: over 15 matching hosts, page 2 with limit 10
does return 5 items, a prev descriptor at page 1 and no next descriptor —
but the response's count field is the page's item count (5), not the
total count of matching hosts (15), so the listing response does not
return the total count. -/
theorem c10_counterexample :
    (exListDb.hosts.filter (matchesVenueQuery emptyVenueQuery)).length = 15 ∧
    (getVenues exListDb emptyVenueQuery 2 10).data.length = 5 ∧
    (getVenues exListDb emptyVenueQuery 2 10).prev = some ⟨1, 10⟩ ∧
    (getVenues exListDb emptyVenueQuery 2 10).next = none ∧
    (getVenues exListDb emptyVenueQuery 2 10).count = 5 ∧
    ¬ (getVenues exListDb emptyVenueQuery 2 10).count = 15 := by
  refine ⟨by decide, by decide, by decide, by decide, by decide, by decide⟩

/-- The `count` field of every listing response is the number of items on
the returned page. -/
theorem paginate_count (m : List Host) (p l : Nat) :
    (paginate m p l).count = (paginate m p l).data.length := rfl

/-- Page 2 with limit 10 over 15 matching documents: five items, a prev
descriptor at page 1, no next descriptor. -/
theorem paginate_15_page2 (m : List Host) (h : m.length = 15) :
    (paginate m 2 10).data.length = 5 ∧
    (paginate m 2 10).prev = some ⟨1, 10⟩ ∧
    (paginate m 2 10).next = none := by
  unfold paginate
  refine ⟨?_, ?_, ?_⟩ <;>
    simp [h, List.length_take, List.length_drop]

/-- Claim C10 (amended): a filtered listing query matching 15 hosts,
requested at page 2 with limit 10, returns exactly 5 items, a prev
descriptor pointing at page 1 and no next descriptor — for the venue
listing and the service-provider listing alike; and every listing
response's count field is the number of items on the returned page (the
source returns `data.length`, not the total count of matching hosts). -/
theorem c10_pagination (db : Db) (q : VenueQuery) (q2 : ServiceQuery)
    (h : (db.hosts.filter (matchesVenueQuery q)).length = 15)
    (h2 : (db.hosts.filter (matchesServiceQuery q2)).length = 15) :
    ((getVenues db q 2 10).data.length = 5 ∧
     (getVenues db q 2 10).prev = some ⟨1, 10⟩ ∧
     (getVenues db q 2 10).next = none) ∧
    ((getServiceProviders db q2 2 10).data.length = 5 ∧
     (getServiceProviders db q2 2 10).prev = some ⟨1, 10⟩ ∧
     (getServiceProviders db q2 2 10).next = none) ∧
    (∀ p l, (getVenues db q p l).count = (getVenues db q p l).data.length ∧
      (getServiceProviders db q2 p l).count =
        (getServiceProviders db q2 p l).data.length) :=
  ⟨paginate_15_page2 _ h, paginate_15_page2 _ h2,
   fun p l => ⟨paginate_count _ p l, paginate_count _ p l⟩⟩

/-- Witness for C10 (amended): the 15-venue store at page 2, limit 10. -/
theorem c10_witness :
    ((getVenues exListDb emptyVenueQuery 2 10).data.length = 5 ∧
     (getVenues exListDb emptyVenueQuery 2 10).prev = some ⟨1, 10⟩ ∧
     (getVenues exListDb emptyVenueQuery 2 10).next = none) ∧
    (getVenues exListDb emptyVenueQuery 3 7).count =
      (getVenues exListDb emptyVenueQuery 3 7).data.length := by
  have h := c10_pagination exListDb emptyVenueQuery ⟨none, none, none⟩
    (by decide) (by decide)
  exact ⟨h.1, (h.2.2 3 7).1⟩

/-- Counterexample for C4: the persistence-layer pre-save guard does
reject a start date beyond now + 3 months, but it throws a plain error
whose name is "Error"; the handlers' error translation surfaces such an
error as Internal (500), not as the Validation taxonomy (which requires
`err.name === 'ValidationError'`). -/
theorem c4_counterexample :
    bookingPreSave 0 exLateBooking =
      .error ⟨"Error", "Bookings can only be made up to 3 months in advance"⟩ ∧
    classifySaveErr ⟨"Error", "Bookings can only be made up to 3 months in advance"⟩
      = .internal ∧
    ¬ classifySaveErr ⟨"Error", "Bookings can only be made up to 3 months in advance"⟩
      = .validation ["Bookings can only be made up to 3 months in advance"] := by
  refine ⟨by rfl, by decide, by decide⟩

/-- Claim C4 (amended): a booking-creation request whose start date
exceeds now + 3 months fails via the direct API check with a 400
invalid-argument response and nothing is persisted; independently, the
persistence-layer pre-save guard rejects any save of such a booking —
but the guard's thrown error is a plain Error that the handlers'
translation surfaces as Internal, not as the Validation taxonomy. -/
theorem c4_threeMonths_reject (db : Db) (uid : Nat) (req : CreateReq)
    (now newId : Nat)
    (hv : venueCheckOk db req.venue = true)
    (hs : req.services.all (providerCheckOk db) = true)
    (hd : req.eventDetails.startDate > threeMonthsFromNow now) :
    createBooking db (.user uid) req now newId = (.tooFarInAdvance, db, []) ∧
    (∀ b : Booking, b.eventDetails.startDate > threeMonthsFromNow now →
       bookingPreSave now b =
         .error ⟨"Error", "Bookings can only be made up to 3 months in advance"⟩ ∧
       classifySaveErr
           ⟨"Error", "Bookings can only be made up to 3 months in advance"⟩
         = .internal) := by
  constructor
  · simp [createBooking, hv, hs, hd]
  · intro b hb
    constructor
    · simp [bookingPreSave, hb]
    · decide

/-- Witness for C4 (amended): a service-less creation request one
millisecond past the window is rejected by the API check against the
empty store, and the pre-save guard rejects the corresponding document. -/
theorem c4_witness :
    createBooking emptyDb (.user 5) exLateReq 0 1 =
      (.tooFarInAdvance, emptyDb, []) ∧
    bookingPreSave 0 exLateBooking =
      .error ⟨"Error", "Bookings can only be made up to 3 months in advance"⟩ := by
  have h := c4_threeMonths_reject emptyDb 5 exLateReq 0 1 (by decide) (by decide)
    (by decide)
  exact ⟨h.1, (h.2 exLateBooking (by decide)).1⟩

/-- Claim C8 (amended): a host that is neither the booking's venue nor
one of its service providers fails with the Forbidden-class rejection
(the source's 401 not-authorized branch) for each of the three valid
target statuses, leaving the store untouched and sending nothing; a
target outside the valid set (such as "pending") is rejected earlier by
the target-validity check with InvalidArgument (400), which is not a
Forbidden-class response. -/
theorem c8_unreferenced_host_forbidden (db : Db) (hid bid : Nat) (b : Booking)
    (now : Nat)
    (hfind : findBooking db bid = some b)
    (hv : isVenueOwnerB b hid = false)
    (hs : isServiceProviderB b hid = false) :
    updateBookingStatus db (.host hid) bid "confirmed" now =
      (.notAuthorizedUpd, db, []) ∧
    updateBookingStatus db (.host hid) bid "cancelled" now =
      (.notAuthorizedUpd, db, []) ∧
    updateBookingStatus db (.host hid) bid "completed" now =
      (.notAuthorizedUpd, db, []) ∧
    updateBookingStatus db (.host hid) bid "pending" now =
      (.invalidStatus, db, []) ∧
    UpdResp.forbiddenClass .notAuthorizedUpd = true := by
  refine ⟨?_, ?_, ?_, by simp [updateBookingStatus, parseUpd], rfl⟩ <;>
    simp [updateBookingStatus, parseUpd, hfind, hv, hs]

/-- Counterexample for C8: an unreferenced host targeting the status
"pending" is rejected by the target-validity check with InvalidArgument
(400), not with a Forbidden-class response, so "for any target status,
fails with Forbidden" does not hold as stated. -/
theorem c8_counterexample :
    updateBookingStatus exDb (.host 99) 1 "pending" 0 =
      (.invalidStatus, exDb, []) ∧
    UpdResp.forbiddenClass (updateBookingStatus exDb (.host 99) 1 "pending" 0).1
      = false := by
  refine ⟨by decide, by decide⟩

/-- Witness for C8 (amended): host 99 is neither the venue (10) nor the
provider (11) of the stored booking; each valid target is rejected with
the 401 not-authorized branch and the store is unchanged. -/
theorem c8_witness :
    updateBookingStatus exDb (.host 99) 1 "confirmed" 0 =
      (.notAuthorizedUpd, exDb, []) ∧
    updateBookingStatus exDb (.host 99) 1 "completed" 0 =
      (.notAuthorizedUpd, exDb, []) := by
  have h := c8_unreferenced_host_forbidden exDb 99 1 exBookingPending 0
    (by rfl) (by decide) (by decide)
  exact ⟨h.1, h.2.2.1⟩

/-- Saving a booking does not change the venue-host lookup of the
status-change fan-out. -/
theorem statusVenueFanout_save (db : Db) (c b : Booking) :
    statusVenueFanout (saveBooking db c) b = statusVenueFanout db b := rfl

/-- Saving a booking does not change the provider lookups of the
status-change fan-out. -/
theorem statusSvcFanout_save (db : Db) (c : Booking) (ss : List ServiceEntry) :
    statusSvcFanout (saveBooking db c) ss = statusSvcFanout db ss := by
  induction ss with
  | nil => rfl
  | cons s rest ih => simp [statusSvcFanout, findHost_saveBooking, ih]

/-- Saving a booking does not change the venue-host lookup of the
payment-confirmation fan-out. -/
theorem confirmVenueFanout_save (db : Db) (c b : Booking) (t : String) :
    confirmVenueFanout (saveBooking db c) b t = confirmVenueFanout db b t := rfl

/-- Saving a booking does not change the provider lookups of the
payment-confirmation fan-out. -/
theorem confirmSvcFanout_save (db : Db) (c : Booking) (t : String)
    (ss : List ServiceEntry) :
    confirmSvcFanout (saveBooking db c) t ss = confirmSvcFanout db t ss := by
  induction ss with
  | nil => rfl
  | cons s rest ih => simp [confirmSvcFanout, findHost_saveBooking, ih]

/-- Claim C7 (amended): the owning user targeting "confirmed" or
"completed" fails with Forbidden (403, users may only cancel) and the
store is untouched; targeting "pending" (not a valid transition target)
fails earlier with InvalidArgument (400); targeting "cancelled"
succeeds, persisting the cancelled booking and fanning out to the user,
the venue host and the service providers. -/
theorem c7_user_only_cancel (db : Db) (uid bid : Nat) (b : Booking) (now : Nat)
    (hfind : findBooking db bid = some b) (hown : b.user = uid) :
    updateBookingStatus db (.user uid) bid "confirmed" now =
      (.usersOnlyCancel, db, []) ∧
    updateBookingStatus db (.user uid) bid "completed" now =
      (.usersOnlyCancel, db, []) ∧
    UpdResp.forbiddenClass .usersOnlyCancel = true ∧
    updateBookingStatus db (.user uid) bid "pending" now =
      (.invalidStatus, db, []) ∧
    (∀ (u : User) (vMsgs sMsgs : List Msg),
       b.eventDetails.startDate ≤ threeMonthsFromNow now →
       findUser db b.user = some u →
       statusVenueFanout db { b with status := .cancelled } = some vMsgs →
       statusSvcFanout db b.services = some sMsgs →
       updateBookingStatus db (.user uid) bid "cancelled" now =
         (.ok { b with status := .cancelled },
          saveBooking db { b with status := .cancelled },
          [⟨.email, u.email, none, none⟩, ⟨.sms, u.mobileNumber, none, none⟩]
            ++ vMsgs ++ sMsgs)) := by
  subst hown
  refine ⟨?_, ?_, rfl, by simp [updateBookingStatus, parseUpd], ?_⟩
  · simp [updateBookingStatus, parseUpd, hfind]
  · simp [updateBookingStatus, parseUpd, hfind]
  · intro u vMsgs sMsgs hdate hu hvf hsf
    have hlt : ¬ (threeMonthsFromNow now < b.eventDetails.startDate) :=
      not_lt.mpr hdate
    simp [updateBookingStatus, parseUpd, hfind, applyStatus,
      bookingPreSave, hlt, findUser_saveBooking, statusVenueFanout_save,
      statusSvcFanout_save, hu, hvf, hsf]

/-- Counterexample for C7: the owning user targeting the status
"pending" is rejected with InvalidArgument (400) by the target-validity
check, not with a Forbidden-class response, so "targeting any status
other than cancelled fails with Forbidden" does not hold as stated. -/
theorem c7_counterexample :
    updateBookingStatus exDb (.user 5) 1 "pending" 0 =
      (.invalidStatus, exDb, []) ∧
    UpdResp.forbiddenClass (updateBookingStatus exDb (.user 5) 1 "pending" 0).1
      = false := by
  refine ⟨by decide, by decide⟩

/-- Witness for C7 (amended): the owning user of the stored booking is
refused "confirmed" with the 403 users-may-only-cancel branch, and
succeeds with "cancelled", which persists the cancellation and notifies
the user, the venue host and the provider. -/
theorem c7_witness :
    updateBookingStatus exDb (.user 5) 1 "confirmed" 0 =
      (.usersOnlyCancel, exDb, []) ∧
    updateBookingStatus exDb (.user 5) 1 "cancelled" 0 =
      (.ok exBookingCancelled,
       ⟨[exBookingCancelled], [exVenueHost, exProvider], [exUser]⟩,
       [⟨.email, "u@ex.com", none, none⟩, ⟨.sms, "111", none, none⟩,
        ⟨.email, "v@ex.com", none, none⟩, ⟨.sms, "222", none, none⟩,
        ⟨.email, "c@ex.com", none, none⟩, ⟨.sms, "333", none, none⟩]) := by
  have h := c7_user_only_cancel exDb 5 1 exBookingPending 0 rfl rfl
  refine ⟨h.1, ?_⟩
  have h2 := h.2.2.2.2 exUser
    [⟨.email, "v@ex.com", none, none⟩, ⟨.sms, "222", none, none⟩]
    [⟨.email, "c@ex.com", none, none⟩, ⟨.sms, "333", none, none⟩]
    (by decide) rfl (by decide) (by decide)
  rw [h2]
  decide

/-- Counterexample for C1: on a booking whose status is the terminal
cancelled, a status-update to "completed" requested by the booking's
venue host succeeds with 200 and persists status completed — it does not
fail and does not leave the status unchanged. -/
theorem c1_counterexample :
    (updateBookingStatus exDbCancelled (.host 10) 1 "completed" 0).1 =
      .ok { exBookingCancelled with status := .completed } ∧
    findBooking (updateBookingStatus exDbCancelled (.host 10) 1 "completed" 0).2.1 1 =
      some { exBookingCancelled with status := .completed } := by
  refine ⟨by decide, by decide⟩

/-- Claim C1 (amended): updateBookingStatus never consults the current
status, so terminal states are not enforced.  On a booking in a terminal
state, a request targeting "completed" fails with a Forbidden-class
response and leaves the store unchanged exactly when the actor lacks
permission (the owning user, or a host that is neither the venue nor a
provider); a referenced host targeting "completed" succeeds, overwriting
the terminal status with completed. -/
theorem c1_terminal_not_enforced (db : Db) (bid : Nat) (b : Booking) (now : Nat)
    (hfind : findBooking db bid = some b)
    (_hterm : b.status = .cancelled ∨ b.status = .completed) :
    (∀ uid, b.user = uid →
       updateBookingStatus db (.user uid) bid "completed" now =
         (.usersOnlyCancel, db, []) ∧
       UpdResp.forbiddenClass .usersOnlyCancel = true) ∧
    (∀ hid, isVenueOwnerB b hid = false → isServiceProviderB b hid = false →
       updateBookingStatus db (.host hid) bid "completed" now =
         (.notAuthorizedUpd, db, []) ∧
       UpdResp.forbiddenClass .notAuthorizedUpd = true) ∧
    (∀ (hid : Nat) (u : User) (vMsgs sMsgs : List Msg),
       (isVenueOwnerB b hid = true ∨ isServiceProviderB b hid = true) →
       b.eventDetails.startDate ≤ threeMonthsFromNow now →
       findUser db b.user = some u →
       statusVenueFanout db { b with status := .completed } = some vMsgs →
       statusSvcFanout db b.services = some sMsgs →
       updateBookingStatus db (.host hid) bid "completed" now =
         (.ok { b with status := .completed },
          saveBooking db { b with status := .completed },
          [⟨.email, u.email, none, none⟩, ⟨.sms, u.mobileNumber, none, none⟩]
            ++ vMsgs ++ sMsgs)) := by
  refine ⟨?_, ?_, ?_⟩
  · intro uid hown
    subst hown
    exact ⟨by simp [updateBookingStatus, parseUpd, hfind], rfl⟩
  · intro hid hv hs
    exact ⟨by simp [updateBookingStatus, parseUpd, hfind, hv, hs], rfl⟩
  · intro hid u vMsgs sMsgs href hdate hu hvf hsf
    have hlt : ¬ (threeMonthsFromNow now < b.eventDetails.startDate) :=
      not_lt.mpr hdate
    have hperm : (!(isVenueOwnerB b hid) && !(isServiceProviderB b hid)) = false := by
      rcases href with h1 | h1 <;> simp [h1]
    simp [updateBookingStatus, parseUpd, hfind, hperm, applyStatus,
      bookingPreSave, hlt, findUser_saveBooking, statusVenueFanout_save,
      statusSvcFanout_save, hu, hvf, hsf]

/-- Witness for C1 (amended): on the stored cancelled booking, the owning
user's "completed" request is refused with 403, an unrelated host's with
401, and the venue host's "completed" request succeeds, overwriting the
terminal status. -/
theorem c1_witness :
    updateBookingStatus exDbCancelled (.user 5) 1 "completed" 0 =
      (.usersOnlyCancel, exDbCancelled, []) ∧
    updateBookingStatus exDbCancelled (.host 99) 1 "completed" 0 =
      (.notAuthorizedUpd, exDbCancelled, []) ∧
    updateBookingStatus exDbCancelled (.host 10) 1 "completed" 0 =
      (.ok exBookingCompleted,
       ⟨[exBookingCompleted], [exVenueHost, exProvider], [exUser]⟩,
       [⟨.email, "u@ex.com", none, none⟩, ⟨.sms, "111", none, none⟩,
        ⟨.email, "v@ex.com", none, none⟩, ⟨.sms, "222", none, none⟩,
        ⟨.email, "c@ex.com", none, none⟩, ⟨.sms, "333", none, none⟩]) := by
  have h := c1_terminal_not_enforced exDbCancelled 1 exBookingCancelled 0 rfl
    (Or.inl rfl)
  refine ⟨(h.1 5 rfl).1, (h.2.1 99 (by decide) (by decide)).1, ?_⟩
  have h2 := h.2.2 10 exUser
    [⟨.email, "v@ex.com", none, none⟩, ⟨.sms, "222", none, none⟩]
    [⟨.email, "c@ex.com", none, none⟩, ⟨.sms, "333", none, none⟩]
    (Or.inl (by decide)) (by decide) rfl (by decide) (by decide)
  rw [h2]
  decide

/-- Projection facts about the paid booking: the mutation block touches
only the payment fields and the status. -/
theorem paidBooking_eventDetails (b : Booking) (t : String) (m : PayMethod)
    (now : Nat) : (paidBooking b t m now).eventDetails = b.eventDetails := rfl

theorem paidBooking_user (b : Booking) (t : String) (m : PayMethod)
    (now : Nat) : (paidBooking b t m now).user = b.user := rfl

theorem paidBooking_services (b : Booking) (t : String) (m : PayMethod)
    (now : Nat) : (paidBooking b t m now).services = b.services := rfl

theorem paidBooking_advanceAmount (b : Booking) (t : String) (m : PayMethod)
    (now : Nat) :
    (paidBooking b t m now).payment.advanceAmount = b.payment.advanceAmount := rfl

theorem paidBooking_isPaid (b : Booking) (t : String) (m : PayMethod)
    (now : Nat) : (paidBooking b t m now).payment.isPaid = true := rfl

theorem paidBooking_transactionId (b : Booking) (t : String) (m : PayMethod)
    (now : Nat) : (paidBooking b t m now).payment.transactionId = some t := rfl

/-- Shared success equation for confirmPayment: under the source's
guards (owner caller, unpaid booking, save within the window, all
referenced principals resolvable) the handler returns 200 with the paid
booking, persists it, and emits the user pair followed by the venue and
provider fan-outs. -/
theorem confirmPayment_success_eq (db : Db) (bid : Nat) (b : Booking)
    (t : String) (m : PayMethod) (now : Nat) (u : User) (vMsgs sMsgs : List Msg)
    (hfind : findBooking db bid = some b)
    (hnp : b.payment.isPaid = false)
    (hdate : b.eventDetails.startDate ≤ threeMonthsFromNow now)
    (hu : findUser db b.user = some u)
    (hvf : confirmVenueFanout db (paidBooking b t m now) t = some vMsgs)
    (hsf : confirmSvcFanout db t b.services = some sMsgs) :
    confirmPayment db (.user b.user) bid t m now =
      (.ok (paidBooking b t m now), saveBooking db (paidBooking b t m now),
       [⟨.email, u.email, some b.payment.advanceAmount, some t⟩,
        ⟨.sms, u.mobileNumber, some b.payment.advanceAmount, some t⟩]
         ++ vMsgs ++ sMsgs) := by
  have hlt : ¬ (threeMonthsFromNow now < b.eventDetails.startDate) :=
    not_lt.mpr hdate
  simp [confirmPayment, hfind, hnp, bookingPreSave, hlt,
    paidBooking_eventDetails, paidBooking_user, paidBooking_services,
    paidBooking_advanceAmount, findUser_saveBooking, confirmVenueFanout_save,
    confirmSvcFanout_save, hu, hvf, hsf]

/-- When the referenced venue host exists, the payment-confirmation venue
fan-out is one email+SMS pair carrying the advance amount, the email also
the transaction id; absent a venue it is empty. -/
theorem confirmVenueFanout_eq (db : Db) (b : Booking) (t : String)
    (vhOf : Nat → Host)
    (h : ∀ v, b.venue = some v → findHost db v = some (vhOf v)) :
    confirmVenueFanout db b t =
      some (match b.venue with
        | none => ([] : List Msg)
        | some v =>
          [⟨.email, (vhOf v).email, some b.payment.advanceAmount, some t⟩,
           ⟨.sms, (vhOf v).mobileNumber, some b.payment.advanceAmount, none⟩]) := by
  cases hb : b.venue with
  | none => simp [confirmVenueFanout, hb]
  | some v => simp [confirmVenueFanout, hb, h v hb]

/-- Claim C6: the client-confirmed payment path does not consult the
booking's current status — for every unpaid booking in any status
(cancelled and completed included), a confirmation by the owning user
succeeds, overwrites the status with confirmed, and persists it, so
payment confirmation can move a booking out of a terminal state. -/
theorem c6_confirm_ignores_status (db : Db) (uid bid : Nat) (b : Booking)
    (t : String) (m : PayMethod) (now : Nat) (u : User)
    (vMsgs sMsgs : List Msg)
    (hfind : findBooking db bid = some b) (hown : b.user = uid)
    (hnp : b.payment.isPaid = false)
    (hdate : b.eventDetails.startDate ≤ threeMonthsFromNow now)
    (hu : findUser db b.user = some u)
    (hvf : confirmVenueFanout db (paidBooking b t m now) t = some vMsgs)
    (hsf : confirmSvcFanout db t b.services = some sMsgs) :
    (confirmPayment db (.user uid) bid t m now).1 = .ok (paidBooking b t m now) ∧
    (paidBooking b t m now).status = .confirmed ∧
    findBooking (confirmPayment db (.user uid) bid t m now).2.1 bid =
      some (paidBooking b t m now) := by
  subst hown
  have h := confirmPayment_success_eq db bid b t m now u vMsgs sMsgs
    hfind hnp hdate hu hvf hsf
  have hid : (paidBooking b t m now).id = bid := id_of_findBooking db bid b hfind
  refine ⟨by rw [h], rfl, ?_⟩
  rw [h]
  exact findBooking_saveBooking db bid b (paidBooking b t m now) hfind hid

/-- Witness for C6: the stored booking is cancelled (terminal) and
unpaid; the owning user's payment confirmation succeeds and the stored
status becomes confirmed. -/
theorem c6_witness :
    (confirmPayment exDbCancelled (.user 5) 1 "tx9" .upi 10).1 =
      .ok (paidBooking exBookingCancelled "tx9" .upi 10) ∧
    (paidBooking exBookingCancelled "tx9" .upi 10).status = .confirmed ∧
    findBooking (confirmPayment exDbCancelled (.user 5) 1 "tx9" .upi 10).2.1 1 =
      some (paidBooking exBookingCancelled "tx9" .upi 10) :=
  c6_confirm_ignores_status exDbCancelled 5 1 exBookingCancelled "tx9" .upi 10
    exUser
    [⟨.email, "v@ex.com", some 2500, some "tx9"⟩, ⟨.sms, "222", some 2500, none⟩]
    [⟨.email, "c@ex.com", some 1500, some "tx9"⟩, ⟨.sms, "333", some 1500, none⟩]
    rfl rfl rfl (by decide) rfl (by decide) (by decide)

/-- Claim C5: for an unpaid booking and a confirmation request by its
owning user, the client-confirmed path verifies ownership and the
not-already-paid condition, sets payment.isPaid, records the supplied
transaction id, payment date and method, sets status to confirmed, and
emits one email+SMS pair to the owning user, one to the venue host when
a venue is present, and one per service entry, each pair informing its
party of the amount (advance for user and venue, the entry's price for
a provider) and of the transaction id (carried by the email of each
pair, and by the user's SMS as well). -/
theorem c5_confirm_payment_effects (db : Db) (uid bid : Nat) (b : Booking)
    (t : String) (m : PayMethod) (now : Nat) (u : User)
    (vhOf : Nat → Host) (pmap : ServiceEntry → Host)
    (hfind : findBooking db bid = some b) (hown : b.user = uid)
    (hnp : b.payment.isPaid = false)
    (hdate : b.eventDetails.startDate ≤ threeMonthsFromNow now)
    (hu : findUser db b.user = some u)
    (hvh : ∀ v, b.venue = some v → findHost db v = some (vhOf v))
    (hp : ∀ s ∈ b.services, findHost db s.serviceProvider = some (pmap s)) :
    confirmPayment db (.user uid) bid t m now =
      (.ok (paidBooking b t m now),
       saveBooking db (paidBooking b t m now),
       [⟨.email, u.email, some b.payment.advanceAmount, some t⟩,
        ⟨.sms, u.mobileNumber, some b.payment.advanceAmount, some t⟩]
       ++ (match b.venue with
           | none => ([] : List Msg)
           | some v =>
             [⟨.email, (vhOf v).email, some b.payment.advanceAmount, some t⟩,
              ⟨.sms, (vhOf v).mobileNumber, some b.payment.advanceAmount, none⟩])
       ++ b.services.flatMap (fun s =>
            [⟨.email, (pmap s).email, some s.price, some t⟩,
             ⟨.sms, (pmap s).mobileNumber, some s.price, none⟩])) := by
  subst hown
  have hvf := confirmVenueFanout_eq db (paidBooking b t m now) t vhOf
    (fun v hv => hvh v hv)
  have hsf := confirmSvcFanout_eq db t b.services pmap hp
  have h := confirmPayment_success_eq db bid b t m now u _ _
    hfind hnp hdate hu hvf hsf
  rw [h]
  exact rfl

/-- Witness for C5: the full success tuple on the stored pending booking
with venue host 10 and caterer 11. -/
theorem c5_witness :
    confirmPayment exDb (.user 5) 1 "tx7" .online_payment 20 =
      (.ok (paidBooking exBookingPending "tx7" .online_payment 20),
       saveBooking exDb (paidBooking exBookingPending "tx7" .online_payment 20),
       [⟨.email, "u@ex.com", some 2500, some "tx7"⟩,
        ⟨.sms, "111", some 2500, some "tx7"⟩]
       ++ [⟨.email, "v@ex.com", some 2500, some "tx7"⟩,
           ⟨.sms, "222", some 2500, none⟩]
       ++ [⟨.email, "c@ex.com", some 1500, some "tx7"⟩,
           ⟨.sms, "333", some 1500, none⟩]) := by
  have h := c5_confirm_payment_effects exDb 5 1 exBookingPending "tx7"
    .online_payment 20 exUser (fun _ => exVenueHost) (fun _ => exProvider)
    rfl rfl rfl (by decide) rfl
    (by intro v hv; cases hv; rfl)
    (by intro s hs; simp [exBookingPending] at hs; cases hs; rfl)
  rw [h]
  decide

/-- Claim C2: a booking's payment is marked paid at most once in
sequence.  A first client confirmation on an unpaid booking succeeds and
fans out once; a second confirmation with a different transaction id
fails with the already-paid rejection (400), changes nothing and sends
nothing, leaving exactly the first transaction id recorded; and a
provider callback for the same booking also leaves the store untouched
(the webhook path sends no notifications at all). -/
theorem c2_paid_at_most_once (db : Db) (bid : Nat) (b : Booking)
    (t1 t2 intentId : String) (m m2 : PayMethod) (now now2 now3 : Nat)
    (u : User) (vMsgs sMsgs : List Msg)
    (hfind : findBooking db bid = some b)
    (hnp : b.payment.isPaid = false)
    (hdate : b.eventDetails.startDate ≤ threeMonthsFromNow now)
    (hu : findUser db b.user = some u)
    (hvf : confirmVenueFanout db (paidBooking b t1 m now) t1 = some vMsgs)
    (hsf : confirmSvcFanout db t1 b.services = some sMsgs) :
    confirmPayment db (.user b.user) bid t1 m now =
      (.ok (paidBooking b t1 m now), saveBooking db (paidBooking b t1 m now),
       [⟨.email, u.email, some b.payment.advanceAmount, some t1⟩,
        ⟨.sms, u.mobileNumber, some b.payment.advanceAmount, some t1⟩]
         ++ vMsgs ++ sMsgs) ∧
    confirmPayment (saveBooking db (paidBooking b t1 m now)) (.user b.user)
        bid t2 m2 now2 =
      (.alreadyPaid, saveBooking db (paidBooking b t1 m now), []) ∧
    (findBooking (saveBooking db (paidBooking b t1 m now)) bid).map
        (fun x => x.payment.transactionId) = some (some t1) ∧
    stripeWebhook (saveBooking db (paidBooking b t1 m now)) true
        "payment_intent.succeeded" intentId (some bid) now3 =
      (.received, saveBooking db (paidBooking b t1 m now)) := by
  have hid : (paidBooking b t1 m now).id = bid := id_of_findBooking db bid b hfind
  have hfind1 : findBooking (saveBooking db (paidBooking b t1 m now)) bid =
      some (paidBooking b t1 m now) :=
    findBooking_saveBooking db bid b (paidBooking b t1 m now) hfind hid
  refine ⟨confirmPayment_success_eq db bid b t1 m now u vMsgs sMsgs
    hfind hnp hdate hu hvf hsf, ?_, ?_, ?_⟩
  · simp [confirmPayment, hfind1, paidBooking_user, paidBooking_isPaid]
  · simp [hfind1, paidBooking_transactionId]
  · simp [stripeWebhook, hfind1, paidBooking_isPaid]

/-- Witness for C2: confirming the stored unpaid booking with "tx1"
succeeds once; a second confirmation with "tx2" is rejected with the
already-paid branch, the store keeps exactly "tx1", and a webhook
callback for the same booking changes nothing. -/
theorem c2_witness :
    confirmPayment exDb (.user 5) 1 "tx1" .online_payment 20 =
      (.ok (paidBooking exBookingPending "tx1" .online_payment 20),
       saveBooking exDb (paidBooking exBookingPending "tx1" .online_payment 20),
       [⟨.email, "u@ex.com", some 2500, some "tx1"⟩,
        ⟨.sms, "111", some 2500, some "tx1"⟩,
        ⟨.email, "v@ex.com", some 2500, some "tx1"⟩,
        ⟨.sms, "222", some 2500, none⟩,
        ⟨.email, "c@ex.com", some 1500, some "tx1"⟩,
        ⟨.sms, "333", some 1500, none⟩]) ∧
    confirmPayment (saveBooking exDb (paidBooking exBookingPending "tx1" .online_payment 20))
        (.user 5) 1 "tx2" .online_payment 30 =
      (.alreadyPaid,
       saveBooking exDb (paidBooking exBookingPending "tx1" .online_payment 20), []) ∧
    (findBooking (saveBooking exDb (paidBooking exBookingPending "tx1" .online_payment 20)) 1).map
        (fun x => x.payment.transactionId) = some (some "tx1") ∧
    stripeWebhook (saveBooking exDb (paidBooking exBookingPending "tx1" .online_payment 20))
        true "payment_intent.succeeded" "pi_9" (some 1) 40 =
      (.received,
       saveBooking exDb (paidBooking exBookingPending "tx1" .online_payment 20)) := by
  have h := c2_paid_at_most_once exDb 1 exBookingPending "tx1" "tx2" "pi_9"
    .online_payment .online_payment 20 30 40 exUser
    [⟨.email, "v@ex.com", some 2500, some "tx1"⟩, ⟨.sms, "222", some 2500, none⟩]
    [⟨.email, "c@ex.com", some 1500, some "tx1"⟩, ⟨.sms, "333", some 1500, none⟩]
    rfl rfl (by decide) rfl (by decide) (by decide)
  exact ⟨h.1, h.2.1, h.2.2.1, h.2.2.2⟩
